import Mathlib

/-!
Shallow embedding of the AR sphere-placement demo.

The repository contains three variants of the same React component:

* `ARExperience.tsx`  — embedded below in namespace `AR1`;
* `ARExperience2.tsx` — embedded below in namespace `AR2`;
* `src/unnamed/part_001` (a further `ARExperience` revision) — namespace `P1`.

Modelling conventions, uniform across the three variants:

* three.js `Vector3` / `Quaternion` components are carried as exact
  rationals: the code only ever copies them and compares them for
  equality (`===`), never combines them arithmetically, so `ℚ` is a
  faithful carrier for the IEEE doubles;
* the meshes (`reticleRef`, `sphereRef`), the renderer, the scene and the
  camera are created unconditionally before any session starts and are
  never nulled afterwards, so their `!ref.current` guards are modelled as
  always-present objects (the guard branches are unreachable);
* an `XRFrame` is modelled by the list of hit-test results the host
  delivers for that tick (`frame.getHitTestResults`), each result being
  an optional pose (`result.getPose` may return `null`);
* the user-facing status strings are modelled as inductive message types,
  one constructor per distinct message the code can show, carrying the
  interpolated data (this keeps every state field decidable);
* host handles held in React refs (session, hit-test source, reference
  spaces, anchor) are modelled as presence booleans, since the code only
  ever tests them for null-ness.
-/

/-- Rational 3-vector modelling a three.js `Vector3` (components are only
copied and compared for exact equality in this code base). -/
structure Vec3 where
  x : ℚ
  y : ℚ
  z : ℚ
deriving DecidableEq

/-- Rational quaternion modelling a three.js `Quaternion`. -/
structure Quat where
  x : ℚ
  y : ℚ
  z : ℚ
  w : ℚ
deriving DecidableEq

/-- Pose of an `XRPose`: position plus orientation of its rigid transform
(the `matrix` decomposition of a rigid transform yields exactly these and a
unit scale). -/
structure Pose where
  position : Vec3
  orientation : Quat
deriving DecidableEq

/-- One entry of `frame.getHitTestResults`: `getPose(refSpace)` may resolve
to a pose or return `null`. -/
structure HitResult where
  pose : Option Pose
deriving DecidableEq

/-- The fields of a three.js `Object3D` this code reads or writes. -/
structure Obj3D where
  position : Vec3
  quaternion : Quat
  visible : Bool
deriving DecidableEq

namespace AR1

/-- Values of the `statusMessage` React state that the modelled functions of
`ARExperience.tsx` can produce. -/
inductive Msg
  | idle
  | hitTestSourceMissing
  | referenceSpaceMissing
  | hitTestResults (n : Nat)
  | placeSphereCalled
  | reticleNotVisible
  | spherePlacedAt (pos : Vec3)
  | sessionEnded
deriving DecidableEq

/-- Values of the `surfaceStatus` React state of `ARExperience.tsx`. -/
inductive SurfaceMsg
  | empty
  | surfaceDetected
  | surfaceAt (pos : Vec3)
  | searching
deriving DecidableEq

/-- Messages shown through `supportInfo` by the support-probe effect of
`ARExperience.tsx`. -/
inductive SupportMsg
  | empty
  | vrButNotAr
  | webXRButNotAr
  | errorChecking (msg : String)
  | webXRUnavailable
deriving DecidableEq

/-- Result of the support-probe effect: the `isSupported` flag and the
`supportInfo` message. -/
structure SupportState where
  isSupported : Bool
  supportInfo : SupportMsg
deriving DecidableEq

/-- Support probe of `ARExperience.tsx` (the first `useEffect`).
`xrInNavigator` models `"xr" in navigator`; `arResult` the settled
`isSessionSupported("immersive-ar")` promise (`.error e` when it rejects
with message `e`); `vrSupported` the settled secondary
`isSessionSupported("immersive-vr")` probe, which is only reached when AR
is unsupported.  `isSupported` starts `false` (its `useState(false)`
initial value) and is only assigned in the fulfilled branch, so a rejected
probe leaves it `false`. -/
def checkSupport (xrInNavigator : Bool) (arResult : Except String Bool)
    (vrSupported : Bool) : SupportState :=
  if xrInNavigator = false then
    { isSupported := false, supportInfo := .webXRUnavailable }
  else
    match arResult with
    | .ok true => { isSupported := true, supportInfo := .empty }
    | .ok false =>
        { isSupported := false,
          supportInfo := if vrSupported then .vrButNotAr else .webXRButNotAr }
    | .error e => { isSupported := false, supportInfo := .errorChecking e }

/-- Per-session state of `ARExperience.tsx` read or written by `onXRFrame`,
`placeSphere` and the teardown paths. -/
structure State where
  session : Bool
  reticle : Obj3D
  sphere : Obj3D
  spherePlaced : Bool
  hitTestSource : Bool
  referenceSpace : Bool
  statusMessage : Msg
  surfaceStatus : SurfaceMsg
  error : String
deriving DecidableEq

/-- Frame callback of `ARExperience.tsx` (`onXRFrame`, lines 205-259),
with `results` the value of `frame.getHitTestResults(hitTestSource)` for
this tick.  The returned boolean records whether the callback re-registered
itself via `xrSession.requestAnimationFrame(onXRFrame)` before returning:
both the sphere-placed early return and the normal tail do so, on every
path.  The `!frame` guard is unreachable (the host always supplies a frame
to a session animation callback) and the reticle mesh always exists, so
those null-checks are elided.  Note the hit-test block runs before the
`spherePlacedRef` check, so the reticle keeps updating after placement;
when a result exists but its pose does not resolve, `reticle.visible` is
left unchanged; `surfaceStatus` is first set to `surfaceDetected` and then
overwritten with the position when the pose resolves. -/
def onXRFrame (s : State) (results : List HitResult) : State × Bool :=
  if s.hitTestSource = false then
    ({ s with statusMessage := .hitTestSourceMissing }, true)
  else if s.referenceSpace = false then
    ({ s with statusMessage := .referenceSpaceMissing }, true)
  else
    match results with
    | hit :: _ =>
      match hit.pose with
      | some p =>
        ({ s with
            statusMessage := .hitTestResults results.length,
            surfaceStatus := .surfaceAt p.position,
            reticle := { s.reticle with
              visible := true,
              position := p.position,
              quaternion := p.orientation } }, true)
      | none =>
        ({ s with
            statusMessage := .hitTestResults results.length,
            surfaceStatus := .surfaceDetected }, true)
    | [] =>
      ({ s with
          statusMessage := .hitTestResults results.length,
          surfaceStatus := .searching,
          reticle := { s.reticle with visible := false } }, true)

/-- Placement handler of `ARExperience.tsx` (`placeSphere`, lines 278-317):
rejected when the reticle is not visible, otherwise the sphere's position
and quaternion are copied from the reticle and the placed flag is set.
The mesh null-guards are elided (meshes always exist, see module note);
the transient `placeSphereCalled` / placing messages are overwritten by
the branch's final message. -/
def placeSphere (s : State) : State :=
  if s.reticle.visible = false then
    { s with statusMessage := .reticleNotVisible }
  else
    { s with
        sphere := { s.sphere with
          position := s.reticle.position,
          quaternion := s.reticle.quaternion,
          visible := true },
        spherePlaced := true,
        statusMessage := .spherePlacedAt s.reticle.position }

/-- The `"end"` event listener of `ARExperience.tsx` (lines 263-269): it
only nulls the session state and stops the animation loop; the hit-test
source, reference space and sphere are left untouched. -/
def onEnd (s : State) : State :=
  { s with session := false, statusMessage := .sessionEnded }

/-- The `endSession` click handler of `ARExperience.tsx` (lines 319-324):
calls `session.end()` only when a session is present; ending fires the
`"end"` listener. -/
def endSession (s : State) : State :=
  if s.session then onEnd s else s

end AR1

namespace AR2

/-- The `ARState` union type of `ARExperience2.tsx`. -/
inductive ARStateTag
  | idle
  | checkingSupport
  | requestingSession
  | settingUp
  | ready
  | placing
deriving DecidableEq

/-- Values of the `statusMessage` React state that the modelled functions of
`ARExperience2.tsx` can produce. -/
inductive Msg
  | readyToStart
  | surfaceFoundTapToPlace
  | pointCameraAtSurface
  | placingSphere
  | spherePlacedWithAnchor
  | spherePlacedNoAnchor
  | spherePlacedPlain
  | arSessionEnded
deriving DecidableEq

/-- Error messages `placeSphere` of `ARExperience2.tsx` can set. -/
inductive ErrMsg
  | noValidSurface
  | sessionNotReady
deriving DecidableEq

/-- Error messages the support-probe effect of `ARExperience2.tsx` can
set. -/
inductive SupportErr
  | webXRUnavailable
  | arNotSupported
  | errorChecking (msg : String)
deriving DecidableEq

/-- Result of the support-probe effect of `ARExperience2.tsx`: the
`isSupported` flag, the `error` message (initially `null`) and the
`arState` tag the effect settles on. -/
structure SupportState where
  isSupported : Bool
  error : Option SupportErr
  arState : ARStateTag
deriving DecidableEq

/-- Support probe of `ARExperience2.tsx` (the first `useEffect`, lines
34-59).  `xrInNavigator` models `'xr' in navigator && navigator.xr`;
`arResult` the settled `isSessionSupported('immersive-ar')` promise
(`.error e` when it rejects with message `e`).  `isSupported` starts
`false` (its `useState(false)` initial value) and is only assigned in the
fulfilled branch, so both the unavailable path and the rejected-promise
catch leave it `false`; the catch records the error text and returns the
UI to idle.  This variant has no secondary `immersive-vr` probe. -/
def checkSupport (xrInNavigator : Bool) (arResult : Except String Bool) :
    SupportState :=
  if xrInNavigator = false then
    { isSupported := false, error := some .webXRUnavailable, arState := .idle }
  else
    match arResult with
    | .ok true => { isSupported := true, error := none, arState := .idle }
    | .ok false =>
        { isSupported := false, error := some .arNotSupported,
          arState := .idle }
    | .error e =>
        { isSupported := false, error := some (.errorChecking e),
          arState := .idle }

/-- Outcome of the best-effort anchor creation inside `placeSphere`:
`createAnchor` absent from the session, anchor created, or the
`createAnchor` promise rejected (caught by the inner `try`). -/
inductive AnchorOutcome
  | unsupported
  | created
  | failed
deriving DecidableEq

/-- The reference-space types this code requests.  `localSpace` stands for
the WebXR `"local"` type (`local` is a reserved word in Lean),
`localFloor` for `"local-floor"`, `viewer` for `"viewer"`. -/
inductive RefSpaceType
  | viewer
  | localFloor
  | localSpace
deriving DecidableEq

/-- Result of `setupReferenceSpaces`: the two spaces obtained plus the
log of every `requestReferenceSpace` call issued, in order. -/
structure RefSpaces where
  viewerSpace : RefSpaceType
  localSpace : RefSpaceType
  requested : List RefSpaceType
deriving DecidableEq

/-- `setupReferenceSpaces` of `ARExperience2.tsx` (lines 132-150): always
requests `viewer`; then tries `local-floor`, and only when that request
rejects (`localFloorOk = false`) issues one further request for `local`,
whose space becomes the session's world space.  The same try/catch pattern
appears inline in `initializeAR` of `ARExperience.tsx` (lines 176-187). -/
def setupReferenceSpaces (localFloorOk : Bool) : RefSpaces :=
  if localFloorOk then
    { viewerSpace := .viewer, localSpace := .localFloor,
      requested := [.viewer, .localFloor] }
  else
    { viewerSpace := .viewer, localSpace := .localSpace,
      requested := [.viewer, .localFloor, .localSpace] }

/-- Per-session state of `ARExperience2.tsx`.  `sphereInScene` models
membership of the sphere mesh in the scene graph (`scene.add` /
`scene.remove`); the sphere mesh itself is created once and reused. -/
structure State where
  arState : ARStateTag
  sessionRef : Bool
  hitTestSourceRef : Bool
  viewerSpaceRef : Bool
  localSpaceRef : Bool
  anchorRef : Bool
  spherePlaced : Bool
  sphereInScene : Bool
  reticle : Obj3D
  sphere : Obj3D
  statusMessage : Msg
  error : Option ErrMsg
deriving DecidableEq

/-- Frame callback of `ARExperience2.tsx` (`onXRFrame`, lines 172-226).
The returned boolean records whether `session.requestAnimationFrame` was
called again before returning: the early `return` when `sessionRef` is
null skips it, every other path reaches it.

`capturedPlaced` is the `spherePlaced` value captured by the callback's
closure.  The callback registered in `startARSession` recursively
re-registers the same closure, so the running loop reads the value captured
at session start (`false`) for the whole session even after the React state
flips to `true`: re-renders create a fresh closure, but nothing ever
registers that fresh closure into the frame chain.

The renderer/scene refs in the early-return guard and the reticle mesh are
always present (module note); the `getViewerPose` block has no effect. -/
def onXRFrame (capturedPlaced : Bool) (s : State) (results : List HitResult) :
    State × Bool :=
  if s.sessionRef = false then (s, false)
  else if s.hitTestSourceRef && !capturedPlaced then
    match results with
    | hit :: _ =>
      if s.localSpaceRef then
        match hit.pose with
        | some p =>
          ({ s with
              reticle := { s.reticle with
                visible := true,
                position := p.position,
                quaternion := p.orientation },
              statusMessage := .surfaceFoundTapToPlace }, true)
        | none => (s, true)
      else
        ({ s with
            reticle := { s.reticle with visible := false },
            statusMessage := .pointCameraAtSurface }, true)
    | [] =>
      ({ s with
          reticle := { s.reticle with visible := false },
          statusMessage := .pointCameraAtSurface }, true)
  else (s, true)

/-- Placement handler of `ARExperience2.tsx` (`placeSphere`, lines
229-290), invoked both by the UI button and by the session's `"select"`
event listener (line 345).  Guards: reticle visibility, then session and
world-space presence — the function never reads the `spherePlaced` flag.
On success the sphere copies the reticle's pose, is added to the scene,
the anchor is attempted best-effort, the reticle is hidden and the placed
flag is set.  The transient `placing` state/message is overwritten before
the handler returns. -/
def placeSphere (s : State) (anchor : AnchorOutcome) : State :=
  if s.reticle.visible = false then
    { s with error := some .noValidSurface }
  else if !s.sessionRef || !s.localSpaceRef then
    { s with error := some .sessionNotReady }
  else
    { s with
        arState := .ready,
        sphere := { s.sphere with
          position := s.reticle.position,
          quaternion := s.reticle.quaternion },
        sphereInScene := true,
        anchorRef := (match anchor with
          | .created => true
          | .failed => s.anchorRef
          | .unsupported => s.anchorRef),
        statusMessage := (match anchor with
          | .created => .spherePlacedWithAnchor
          | .failed => .spherePlacedNoAnchor
          | .unsupported => .spherePlacedPlain),
        reticle := { s.reticle with visible := false },
        spherePlaced := true }

/-- The `"end"` event listener of `ARExperience2.tsx` (lines 331-342):
resets the UI state, clears the session and anchor refs, resets the placed
flag and removes the sphere from the scene.  The hit-test source and the
two reference-space refs are not touched. -/
def onEnd (s : State) : State :=
  { s with
      arState := .idle,
      statusMessage := .arSessionEnded,
      spherePlaced := false,
      sessionRef := false,
      anchorRef := false,
      sphereInScene := false }

/-- The `endARSession` handler of `ARExperience2.tsx` (lines 357-361):
calls `session.end()` only when the session ref is set; ending fires the
`"end"` listener. -/
def endARSession (s : State) : State :=
  if s.sessionRef then onEnd s else s

/-- Host-driven frame delivery: frames keep arriving as long as the
previous callback re-registered itself; the first callback that returns
without re-registering ends the loop. -/
def runLoop (capturedPlaced : Bool) : State → List (List HitResult) → State
  | s, [] => s
  | s, res :: rest =>
      match onXRFrame capturedPlaced s res with
      | (s', true) => runLoop capturedPlaced s' rest
      | (s', false) => s'

end AR2

namespace P1

/-- Reticle state of the `part_001` variant: in addition to the mesh pose
and visibility it keeps `userData.hideCounter`, the count of consecutive
no-result frames used to delay hiding. -/
structure Reticle where
  position : Vec3
  quaternion : Quat
  visible : Bool
  hideCounter : Nat
deriving DecidableEq

/-- Values of the `statusMessage` React state that the modelled functions
of `part_001` can produce. -/
inductive Msg
  | frameOk (n : Nat)
  | hitTestSourceMissing
  | referenceSpaceMissing
  | hitTests (n : Nat) (reticleVisible : Bool)
  | placeSphereCalled
  | noValidPosition
  | spherePlacedAt (pos : Vec3)
deriving DecidableEq

/-- Values of the `surfaceStatus` React state of `part_001`. -/
inductive SurfaceMsg
  | empty
  | surfaceAt (pos : Vec3)
  | searching
deriving DecidableEq

/-- Per-session state of the `part_001` variant. -/
structure State where
  reticle : Reticle
  sphere : Obj3D
  spherePlaced : Bool
  hitTestSource : Bool
  referenceSpace : Bool
  frameCount : Nat
  statusMessage : Msg
  surfaceStatus : SurfaceMsg
deriving DecidableEq

/-- Frame callback of `part_001` (`onXRFrame`, lines 222-330), driven by
`renderer.setAnimationLoop`.  The whole hit-test block is skipped once the
sphere is placed.  On a resolved hit the reticle pose is overwritten and
`hideCounter` reset; on a frame with zero results the reticle is NOT hidden
immediately: `hideCounter` is incremented and only once it exceeds 30 is
the reticle hidden (and the counter reset).  A hit whose pose does not
resolve changes nothing beyond the status message. -/
def onXRFrame (s : State) (results : List HitResult) : State :=
  if s.spherePlaced then
    { s with
        frameCount := s.frameCount + 1,
        statusMessage := .frameOk (s.frameCount + 1) }
  else if s.hitTestSource = false then
    { s with
        frameCount := s.frameCount + 1,
        statusMessage := .hitTestSourceMissing }
  else if s.referenceSpace = false then
    { s with
        frameCount := s.frameCount + 1,
        statusMessage := .referenceSpaceMissing }
  else
    match results with
    | hit :: _ =>
      match hit.pose with
      | some p =>
        { s with
            frameCount := s.frameCount + 1,
            statusMessage := .hitTests results.length s.reticle.visible,
            reticle := { position := p.position, quaternion := p.orientation,
                         visible := true, hideCounter := 0 },
            surfaceStatus := .surfaceAt p.position }
      | none =>
        { s with
            frameCount := s.frameCount + 1,
            statusMessage := .hitTests results.length s.reticle.visible }
    | [] =>
      if s.reticle.hideCounter + 1 > 30 then
        { s with
            frameCount := s.frameCount + 1,
            statusMessage := .hitTests results.length s.reticle.visible,
            surfaceStatus := .searching,
            reticle := { s.reticle with visible := false, hideCounter := 0 } }
      else
        { s with
            frameCount := s.frameCount + 1,
            statusMessage := .hitTests results.length s.reticle.visible,
            surfaceStatus := .searching,
            reticle := { s.reticle with
              hideCounter := s.reticle.hideCounter + 1 } }

/-- Placement handler of `part_001` (`placeSphere`, lines 358-411).  The
visibility guard of the other variants is replaced by an origin check:
per the source comment it tries "to place sphere even if reticle is not
visible, as long as it has a valid position", rejecting exactly when the
reticle position is component-wise zero.  On success the sphere copies the
reticle pose, becomes visible, the reticle is force-hidden and the placed
flag set. -/
def placeSphere (s : State) : State :=
  if s.reticle.position.x = 0 ∧ s.reticle.position.y = 0 ∧
      s.reticle.position.z = 0 then
    { s with statusMessage := .noValidPosition }
  else
    { s with
        sphere := { s.sphere with
          position := s.reticle.position,
          quaternion := s.reticle.quaternion,
          visible := true },
        reticle := { s.reticle with visible := false },
        spherePlaced := true,
        statusMessage := .spherePlacedAt s.reticle.position }

end P1

/-! ### Concrete states used by counterexamples and witnesses -/

/-- Default quaternion (identity orientation). -/
def qId : Quat := ⟨0, 0, 0, 1⟩

/-- P1 state for the C1 counterexample: reticle currently visible,
hide counter zero, session healthy. -/
def c1state : P1.State :=
  { reticle := { position := ⟨1, 2, -3⟩, quaternion := qId,
                 visible := true, hideCounter := 0 },
    sphere := ⟨⟨0, 0, 0⟩, qId, false⟩,
    spherePlaced := false, hitTestSource := true, referenceSpace := true,
    frameCount := 5, statusMessage := .frameOk 5, surfaceStatus := .searching }

/-- AR1 state for the C1 witness: healthy session, reticle hidden. -/
def c1w1 : AR1.State :=
  { session := true,
    reticle := ⟨⟨0, 0, 0⟩, qId, false⟩,
    sphere := ⟨⟨0, 0, 0⟩, qId, false⟩,
    spherePlaced := false, hitTestSource := true, referenceSpace := true,
    statusMessage := .idle, surfaceStatus := .empty, error := "" }

/-- Hit-test result with a resolved pose, for the C1 witness. -/
def c1hit : HitResult :=
  { pose := some { position := ⟨1, 0, -2⟩, orientation := qId } }

/-- AR2 state for the C1 witness: healthy session, reticle visible. -/
def c1w2 : AR2.State :=
  { arState := .ready, sessionRef := true, hitTestSourceRef := true,
    viewerSpaceRef := true, localSpaceRef := true, anchorRef := false,
    spherePlaced := false, sphereInScene := false,
    reticle := ⟨⟨2, 0, -1⟩, qId, true⟩,
    sphere := ⟨⟨0, 0, 0⟩, qId, true⟩,
    statusMessage := .surfaceFoundTapToPlace, error := none }

/-- AR2 mid-session state for the C2 counterexample: every per-session ref
is populated. -/
def c2state : AR2.State :=
  { arState := .ready, sessionRef := true, hitTestSourceRef := true,
    viewerSpaceRef := true, localSpaceRef := true, anchorRef := true,
    spherePlaced := true, sphereInScene := true,
    reticle := ⟨⟨0, 0, 0⟩, qId, false⟩,
    sphere := ⟨⟨1, 1, 1⟩, qId, true⟩,
    statusMessage := .spherePlacedPlain, error := none }

/-- AR1 state for the C3 witness: reticle visible over a surface. -/
def c3w1 : AR1.State :=
  { session := true,
    reticle := ⟨⟨1, 2, 3⟩, ⟨1, 0, 0, 0⟩, true⟩,
    sphere := ⟨⟨0, 0, 0⟩, qId, false⟩,
    spherePlaced := false, hitTestSource := true, referenceSpace := true,
    statusMessage := .idle, surfaceStatus := .surfaceAt ⟨1, 2, 3⟩, error := "" }

/-- AR2 state for the C3 witness: reticle visible over a surface. -/
def c3w2 : AR2.State :=
  { arState := .ready, sessionRef := true, hitTestSourceRef := true,
    viewerSpaceRef := true, localSpaceRef := true, anchorRef := false,
    spherePlaced := false, sphereInScene := false,
    reticle := ⟨⟨-1, 0, -2⟩, qId, true⟩,
    sphere := ⟨⟨0, 0, 0⟩, qId, true⟩,
    statusMessage := .surfaceFoundTapToPlace, error := none }

/-- AR2 session start state for the C4 counterexample trace. -/
def c4s0 : AR2.State :=
  { arState := .ready, sessionRef := true, hitTestSourceRef := true,
    viewerSpaceRef := true, localSpaceRef := true, anchorRef := false,
    spherePlaced := false, sphereInScene := false,
    reticle := ⟨⟨0, 0, -1⟩, qId, true⟩,
    sphere := ⟨⟨0, 0, 0⟩, qId, true⟩,
    statusMessage := .surfaceFoundTapToPlace, error := none }

/-- C4 trace, step 1: first (successful) placement at `(0, 0, -1)`. -/
def c4s1 : AR2.State := AR2.placeSphere c4s0 .unsupported

/-- C4 trace, step 2: a later frame of the still-running loop (whose
closure captured `spherePlaced = false` at registration time) re-shows the
reticle on a surface at `(1, 0, -2)`. -/
def c4s2 : AR2.State :=
  (AR2.onXRFrame false c4s1
    [{ pose := some { position := ⟨1, 0, -2⟩, orientation := qId } }]).1

/-- C4 trace, step 3: a second `"select"` trigger runs `placeSphere`
again. -/
def c4s3 : AR2.State := AR2.placeSphere c4s2 .unsupported

/-- AR2 state for the C4 witness. -/
def c4w : AR2.State :=
  { arState := .ready, sessionRef := true, hitTestSourceRef := true,
    viewerSpaceRef := true, localSpaceRef := true, anchorRef := false,
    spherePlaced := false, sphereInScene := true,
    reticle := ⟨⟨3, 0, -1⟩, qId, true⟩,
    sphere := ⟨⟨5, 5, 5⟩, qId, true⟩,
    statusMessage := .surfaceFoundTapToPlace, error := none }

/-- P1 state for the C5 counterexample: reticle invisible but holding a
non-origin last-known pose. -/
def c5state : P1.State :=
  { reticle := { position := ⟨1, 2, 3⟩, quaternion := qId,
                 visible := false, hideCounter := 0 },
    sphere := ⟨⟨0, 0, 0⟩, qId, false⟩,
    spherePlaced := false, hitTestSource := true, referenceSpace := true,
    frameCount := 40, statusMessage := .placeSphereCalled,
    surfaceStatus := .searching }

/-- AR1 state for the C5 witness: reticle invisible. -/
def c5w1 : AR1.State :=
  { session := true,
    reticle := ⟨⟨4, 0, -2⟩, qId, false⟩,
    sphere := ⟨⟨0, 0, 0⟩, qId, false⟩,
    spherePlaced := false, hitTestSource := true, referenceSpace := true,
    statusMessage := .idle, surfaceStatus := .searching, error := "" }

/-- AR2 state for the C5 witness: reticle invisible. -/
def c5w2 : AR2.State :=
  { arState := .ready, sessionRef := true, hitTestSourceRef := true,
    viewerSpaceRef := true, localSpaceRef := true, anchorRef := false,
    spherePlaced := false, sphereInScene := false,
    reticle := ⟨⟨4, 0, -2⟩, qId, false⟩,
    sphere := ⟨⟨0, 0, 0⟩, qId, true⟩,
    statusMessage := .pointCameraAtSurface, error := none }

/-- AR1 state for the C7 witness: healthy session, reticle visible. -/
def c7w1 : AR1.State :=
  { session := true,
    reticle := ⟨⟨1, 0, -1⟩, qId, true⟩,
    sphere := ⟨⟨0, 0, 0⟩, qId, false⟩,
    spherePlaced := false, hitTestSource := true, referenceSpace := true,
    statusMessage := .hitTestResults 1, surfaceStatus := .surfaceAt ⟨1, 0, -1⟩,
    error := "" }

/-- AR2 state for the C7 witness: healthy session, reticle visible. -/
def c7w2 : AR2.State :=
  { arState := .ready, sessionRef := true, hitTestSourceRef := true,
    viewerSpaceRef := true, localSpaceRef := true, anchorRef := false,
    spherePlaced := false, sphereInScene := false,
    reticle := ⟨⟨1, 0, -1⟩, qId, true⟩,
    sphere := ⟨⟨0, 0, 0⟩, qId, true⟩,
    statusMessage := .surfaceFoundTapToPlace, error := none }

/-- P1 state for the C10 witness, rejection side: a genuinely detected
surface (reticle visible) whose pose is exactly the origin. -/
def c10sA : P1.State :=
  { reticle := { position := ⟨0, 0, 0⟩, quaternion := qId,
                 visible := true, hideCounter := 0 },
    sphere := ⟨⟨0, 0, 0⟩, qId, false⟩,
    spherePlaced := false, hitTestSource := true, referenceSpace := true,
    frameCount := 7, statusMessage := .hitTests 1 true,
    surfaceStatus := .surfaceAt ⟨0, 0, 0⟩ }

/-- P1 state for the C10 witness, success side: invisible reticle with a
non-origin last-known pose. -/
def c10sB : P1.State :=
  { reticle := { position := ⟨2, 0, -3⟩, quaternion := qId,
                 visible := false, hideCounter := 12 },
    sphere := ⟨⟨0, 0, 0⟩, qId, false⟩,
    spherePlaced := false, hitTestSource := true, referenceSpace := true,
    frameCount := 80, statusMessage := .hitTests 0 false,
    surfaceStatus := .searching }

/-! ### Claim theorems -/

/-- C1 counterexample: the claim states the indicator's visibility after
frame N equals "frame N's hit-test returned at least one result".  In the
`part_001` frame loop a frame with zero results leaves a visible reticle
visible (the hide is deferred behind a 30-frame counter), so after such a
frame the visibility is `true` while no result existed. -/
theorem c1_counterexample :
    ¬(((P1.onXRFrame c1state []).reticle.visible = true) ↔
        (([] : List HitResult) ≠ [])) := by
  decide

/-- C1 (amended): in the `ARExperience.tsx` and `ARExperience2.tsx` frame
loops — with the hit-test source and reference spaces available, the
session active, and (for `ARExperience2`) the loop's captured placed flag
still `false` — the indicator's visibility after a frame equals whether
that frame's hit-test returned at least one result, provided every
returned result's pose resolves.  (A result whose pose fails to resolve
leaves visibility unchanged, and the `part_001` variant defers hiding
behind a 30-frame counter; the counterexample shows the unamended claim
fails there.) -/
theorem c1_indicator_visibility :
    (∀ (s : AR1.State) (results : List HitResult),
      s.hitTestSource = true → s.referenceSpace = true →
      results.all (fun r => r.pose.isSome) = true →
      (((AR1.onXRFrame s results).1.reticle.visible = true) ↔ results ≠ [])) ∧
    (∀ (s : AR2.State) (results : List HitResult),
      s.sessionRef = true → s.hitTestSourceRef = true → s.localSpaceRef = true →
      results.all (fun r => r.pose.isSome) = true →
      (((AR2.onXRFrame false s results).1.reticle.visible = true) ↔
          results ≠ [])) := by
  constructor
  · intro s results hht hrs hall
    cases results with
    | nil => simp [AR1.onXRFrame, hht, hrs]
    | cons hit rest =>
        simp only [List.all_cons, Bool.and_eq_true] at hall
        rcases hp : hit.pose with _ | p
        · exact absurd hall.1 (by simp [hp])
        · simp [AR1.onXRFrame, hht, hrs, hp]
  · intro s results hsr hht hls hall
    cases results with
    | nil => simp [AR2.onXRFrame, hsr, hht]
    | cons hit rest =>
        simp only [List.all_cons, Bool.and_eq_true] at hall
        rcases hp : hit.pose with _ | p
        · exact absurd hall.1 (by simp [hp])
        · simp [AR2.onXRFrame, hsr, hht, hls, hp]

/-- C1 witness: the amended statement evaluated at a one-result frame for
`ARExperience.tsx` and an empty frame for `ARExperience2.tsx`. -/
theorem c1_witness :
    (((AR1.onXRFrame c1w1 [c1hit]).1.reticle.visible = true) ↔
        ([c1hit] ≠ ([] : List HitResult))) ∧
    (((AR2.onXRFrame false c1w2 []).1.reticle.visible = true) ↔
        (([] : List HitResult) ≠ [])) :=
  ⟨c1_indicator_visibility.1 c1w1 [c1hit] rfl rfl (by decide),
   c1_indicator_visibility.2 c1w2 [] rfl rfl rfl (by decide)⟩

/-- C2 counterexample: the `"end"` listener of `ARExperience2.tsx` leaves
the hit-test source and both reference-space refs populated, so "ending a
session clears the hit-test channel reference and both reference-space
references" is false. -/
theorem c2_counterexample :
    ¬((AR2.onEnd c2state).hitTestSourceRef = false ∧
      (AR2.onEnd c2state).viewerSpaceRef = false ∧
      (AR2.onEnd c2state).localSpaceRef = false) := by
  decide

/-- C2 (amended): ending a session in `ARExperience2.tsx` clears the
session and anchor references, resets the placed flag and removes the
placed object from the scene, but leaves the hit-test channel reference
and both reference-space references untouched; in `ARExperience.tsx` it
clears only the session reference (and stops the loop), leaving hit-test
source, reference space and sphere untouched; in both variants a second
`end()` call is a no-op. -/
theorem c2_teardown :
    ∀ (s : AR2.State) (t : AR1.State),
      (AR2.onEnd s).sessionRef = false ∧
      (AR2.onEnd s).anchorRef = false ∧
      (AR2.onEnd s).spherePlaced = false ∧
      (AR2.onEnd s).sphereInScene = false ∧
      (AR2.onEnd s).hitTestSourceRef = s.hitTestSourceRef ∧
      (AR2.onEnd s).viewerSpaceRef = s.viewerSpaceRef ∧
      (AR2.onEnd s).localSpaceRef = s.localSpaceRef ∧
      AR2.endARSession (AR2.endARSession s) = AR2.endARSession s ∧
      (AR1.onEnd t).session = false ∧
      (AR1.onEnd t).hitTestSource = t.hitTestSource ∧
      (AR1.onEnd t).referenceSpace = t.referenceSpace ∧
      (AR1.onEnd t).sphere = t.sphere ∧
      AR1.endSession (AR1.endSession t) = AR1.endSession t := by
  intro s t
  refine ⟨rfl, rfl, rfl, rfl, rfl, rfl, rfl, ?_, rfl, rfl, rfl, rfl, ?_⟩
  · cases hs : s.sessionRef <;> simp [AR2.endARSession, AR2.onEnd, hs]
  · cases ht : t.session <;> simp [AR1.endSession, AR1.onEnd, ht]

/-- C3: in both `ARExperience.tsx` and `ARExperience2.tsx`, a placement
call whose preconditions hold copies the indicator's pose exactly onto the
placed sphere — position and quaternion component-wise equal — and makes
the placement effective. -/
theorem c3_placement_copies_pose :
    (∀ s : AR1.State, s.reticle.visible = true →
      (AR1.placeSphere s).sphere.position = s.reticle.position ∧
      (AR1.placeSphere s).sphere.quaternion = s.reticle.quaternion ∧
      (AR1.placeSphere s).sphere.visible = true ∧
      (AR1.placeSphere s).spherePlaced = true) ∧
    (∀ (s : AR2.State) (a : AR2.AnchorOutcome),
      s.reticle.visible = true → s.sessionRef = true → s.localSpaceRef = true →
      (AR2.placeSphere s a).sphere.position = s.reticle.position ∧
      (AR2.placeSphere s a).sphere.quaternion = s.reticle.quaternion ∧
      (AR2.placeSphere s a).sphereInScene = true ∧
      (AR2.placeSphere s a).spherePlaced = true) := by
  constructor
  · intro s h
    simp [AR1.placeSphere, h]
  · intro s a h hs hl
    simp [AR2.placeSphere, h, hs, hl]

/-- C3 witness: the theorem evaluated at concrete visible-reticle states
for both variants. -/
theorem c3_witness :
    ((AR1.placeSphere c3w1).sphere.position = c3w1.reticle.position ∧
     (AR1.placeSphere c3w1).sphere.quaternion = c3w1.reticle.quaternion ∧
     (AR1.placeSphere c3w1).sphere.visible = true ∧
     (AR1.placeSphere c3w1).spherePlaced = true) ∧
    ((AR2.placeSphere c3w2 .created).sphere.position = c3w2.reticle.position ∧
     (AR2.placeSphere c3w2 .created).sphere.quaternion = c3w2.reticle.quaternion ∧
     (AR2.placeSphere c3w2 .created).sphereInScene = true ∧
     (AR2.placeSphere c3w2 .created).spherePlaced = true) :=
  ⟨c3_placement_copies_pose.1 c3w1 rfl,
   c3_placement_copies_pose.2 c3w2 .created rfl rfl rfl⟩

/-- C4 counterexample: `placeSphere` of `ARExperience2.tsx` never reads the
already-placed flag, and the running frame-loop closure captured
`spherePlaced = false` at registration, so it re-shows the reticle after a
placement; a second `"select"` trigger then re-places (moves) the placed
sphere.  Concretely: after a successful placement at `(0, 0, -1)`
(`c4s1`, flag set), one more frame with a hit at `(1, 0, -2)` and a second
trigger leave the placed object at a different pose — the claim's "a
second trigger after a successful placement places nothing" is false. -/
theorem c4_counterexample :
    c4s1.spherePlaced = true ∧
    c4s2.reticle.visible = true ∧
    c4s3.sphere.position ≠ c4s1.sphere.position := by
  decide

/-- C4 (amended): both the UI button and the host's `"select"` event invoke
the same `placeSphere` logic, and only one sphere mesh ever exists, so at
most one placed object exists at any time; but the logic is guarded by
reticle visibility and session readiness, not by the already-placed flag:
with those guards satisfied, placement succeeds for either value of the
placed flag, re-placing the single sphere at the indicator's current
pose. -/
theorem c4_single_object_guard :
    ∀ (s : AR2.State) (a : AR2.AnchorOutcome) (b : Bool),
      s.reticle.visible = true → s.sessionRef = true → s.localSpaceRef = true →
      (AR2.placeSphere { s with spherePlaced := b } a).sphere.position =
        s.reticle.position ∧
      (AR2.placeSphere { s with spherePlaced := b } a).spherePlaced = true ∧
      (AR2.placeSphere { s with spherePlaced := b } a).sphereInScene = true := by
  intro s a b h hs hl
  simp [AR2.placeSphere, h, hs, hl]

/-- C4 witness: the amended statement evaluated with the placed flag
already `true`. -/
theorem c4_witness :
    (AR2.placeSphere { c4w with spherePlaced := true } .failed).sphere.position =
      c4w.reticle.position ∧
    (AR2.placeSphere { c4w with spherePlaced := true } .failed).spherePlaced = true ∧
    (AR2.placeSphere { c4w with spherePlaced := true } .failed).sphereInScene = true :=
  c4_single_object_guard c4w .failed true rfl rfl rfl

/-- C5 counterexample: in the `part_001` variant a placement triggered
while the indicator is invisible is not rejected: with a non-origin
last-known pose the sphere is placed and made visible and the placed flag
is set, so the claim is false for that variant. -/
theorem c5_counterexample :
    c5state.reticle.visible = false ∧
    (P1.placeSphere c5state).spherePlaced = true ∧
    (P1.placeSphere c5state).sphere.visible = true := by
  decide

/-- C5 (amended): in `ARExperience.tsx` and `ARExperience2.tsx` a placement
trigger while the indicator is invisible is rejected: the sphere, the
placed flag and (for `ARExperience2`) scene membership are unchanged, only
a status/error message is set, and the handler — a total function here —
returns normally; the `part_001` variant instead rejects on an
origin-valued pose, so an invisible indicator with a non-origin last-known
pose still places (see the counterexample). -/
theorem c5_reject_when_invisible :
    (∀ s : AR1.State, s.reticle.visible = false →
      (AR1.placeSphere s).sphere = s.sphere ∧
      (AR1.placeSphere s).spherePlaced = s.spherePlaced ∧
      (AR1.placeSphere s).error = s.error ∧
      (AR1.placeSphere s).reticle = s.reticle) ∧
    (∀ (s : AR2.State) (a : AR2.AnchorOutcome), s.reticle.visible = false →
      (AR2.placeSphere s a).sphere = s.sphere ∧
      (AR2.placeSphere s a).spherePlaced = s.spherePlaced ∧
      (AR2.placeSphere s a).sphereInScene = s.sphereInScene ∧
      (AR2.placeSphere s a).reticle = s.reticle) := by
  constructor
  · intro s h
    simp [AR1.placeSphere, h]
  · intro s a h
    simp [AR2.placeSphere, h]

/-- C5 witness: the amended statement evaluated at concrete
invisible-reticle states for both variants. -/
theorem c5_witness :
    ((AR1.placeSphere c5w1).sphere = c5w1.sphere ∧
     (AR1.placeSphere c5w1).spherePlaced = c5w1.spherePlaced ∧
     (AR1.placeSphere c5w1).error = c5w1.error ∧
     (AR1.placeSphere c5w1).reticle = c5w1.reticle) ∧
    ((AR2.placeSphere c5w2 .unsupported).sphere = c5w2.sphere ∧
     (AR2.placeSphere c5w2 .unsupported).spherePlaced = c5w2.spherePlaced ∧
     (AR2.placeSphere c5w2 .unsupported).sphereInScene = c5w2.sphereInScene ∧
     (AR2.placeSphere c5w2 .unsupported).reticle = c5w2.reticle) :=
  ⟨c5_reject_when_invisible.1 c5w1 rfl,
   c5_reject_when_invisible.2 c5w2 .unsupported rfl⟩

/-- C6: when the preferred `local-floor` request is rejected, the fallback
`local` type is requested exactly once and the space obtained becomes the
session's world space; and no operation of the session — frame loop,
placement, teardown — ever changes the world reference space afterwards,
in either variant. -/
theorem c6_fallback_reference_space :
    (AR2.setupReferenceSpaces false).localSpace = .localSpace ∧
    (AR2.setupReferenceSpaces false).requested.count .localSpace = 1 ∧
    (∀ (cap : Bool) (s : AR2.State) (results : List HitResult),
      (AR2.onXRFrame cap s results).1.localSpaceRef = s.localSpaceRef) ∧
    (∀ (s : AR2.State) (a : AR2.AnchorOutcome),
      (AR2.placeSphere s a).localSpaceRef = s.localSpaceRef) ∧
    (∀ s : AR2.State, (AR2.onEnd s).localSpaceRef = s.localSpaceRef) ∧
    (∀ (s : AR1.State) (results : List HitResult),
      (AR1.onXRFrame s results).1.referenceSpace = s.referenceSpace) ∧
    (∀ s : AR1.State, (AR1.placeSphere s).referenceSpace = s.referenceSpace) ∧
    (∀ s : AR1.State, (AR1.onEnd s).referenceSpace = s.referenceSpace) := by
  refine ⟨by decide, by decide, ?_, ?_, fun s => rfl, ?_, ?_, fun s => rfl⟩
  · intro cap s results
    unfold AR2.onXRFrame
    repeat' split
    all_goals rfl
  · intro s a
    unfold AR2.placeSphere
    repeat' split
    all_goals rfl
  · intro s results
    unfold AR1.onXRFrame
    repeat' split
    all_goals rfl
  · intro s
    unfold AR1.placeSphere
    repeat' split
    all_goals rfl

/-- C7: a frame whose hit-test query returns zero results is the normal
no-surface state: in both main variants (with the session healthy and, for
`ARExperience2`, hit-testing still active) the frame step only hides the
indicator and updates the status text — the full post-state is exactly the
pre-state with those fields changed — the error field is untouched, and the
callback returns normally, re-registering itself. -/
theorem c7_empty_results_not_error :
    (∀ s : AR1.State, s.hitTestSource = true → s.referenceSpace = true →
      (AR1.onXRFrame s []).1 =
        { s with
            statusMessage := .hitTestResults 0,
            surfaceStatus := .searching,
            reticle := { s.reticle with visible := false } } ∧
      (AR1.onXRFrame s []).1.error = s.error ∧
      (AR1.onXRFrame s []).2 = true) ∧
    (∀ s : AR2.State, s.sessionRef = true → s.hitTestSourceRef = true →
      (AR2.onXRFrame false s []).1 =
        { s with
            reticle := { s.reticle with visible := false },
            statusMessage := .pointCameraAtSurface } ∧
      (AR2.onXRFrame false s []).1.error = s.error ∧
      (AR2.onXRFrame false s []).2 = true) := by
  constructor
  · intro s hht hrs
    refine ⟨?_, ?_, ?_⟩ <;> simp [AR1.onXRFrame, hht, hrs]
  · intro s hsr hht
    refine ⟨?_, ?_, ?_⟩ <;> simp [AR2.onXRFrame, hsr, hht]

/-- C7 witness: the theorem evaluated at concrete healthy mid-session
states for both variants. -/
theorem c7_witness :
    ((AR1.onXRFrame c7w1 []).1 =
        { c7w1 with
            statusMessage := .hitTestResults 0,
            surfaceStatus := .searching,
            reticle := { c7w1.reticle with visible := false } } ∧
     (AR1.onXRFrame c7w1 []).1.error = c7w1.error ∧
     (AR1.onXRFrame c7w1 []).2 = true) ∧
    ((AR2.onXRFrame false c7w2 []).1 =
        { c7w2 with
            reticle := { c7w2.reticle with visible := false },
            statusMessage := .pointCameraAtSurface } ∧
     (AR2.onXRFrame false c7w2 []).1.error = c7w2.error ∧
     (AR2.onXRFrame false c7w2 []).2 = true) :=
  ⟨c7_empty_results_not_error.1 c7w1 rfl rfl,
   c7_empty_results_not_error.2 c7w2 rfl rfl⟩

/-- C8: if the asynchronous `immersive-ar` support probe rejects, the
supported flag stays `false` and the error text is recorded for display,
in both cited variants (`ARExperience.tsx` and `ARExperience2.tsx`); and
the secondary `immersive-vr` probe (present only in `ARExperience.tsx`)
can only influence the user-facing message — the supported flag is the
same for every value of the VR probe's answer. -/
theorem c8_probe_failure_unsupported :
    (∀ (e : String) (vr : Bool),
      AR1.checkSupport true (.error e) vr =
        { isSupported := false, supportInfo := .errorChecking e }) ∧
    (∀ e : String,
      AR2.checkSupport true (.error e) =
        { isSupported := false, error := some (.errorChecking e),
          arState := .idle }) ∧
    (∀ (xr : Bool) (ar : Except String Bool) (v1 v2 : Bool),
      (AR1.checkSupport xr ar v1).isSupported =
        (AR1.checkSupport xr ar v2).isSupported) := by
  refine ⟨fun e vr => rfl, fun e => rfl, ?_⟩
  intro xr ar v1 v2
  cases xr
  · rfl
  · cases ar with
    | error e => rfl
    | ok b => cases b <;> rfl

/-- C9: the frame callback of `ARExperience.tsx` re-registers itself on
every control path; the one of `ARExperience2.tsx` re-registers exactly
when the session reference is still set, which the `"end"` listener
clears — so once the host delivers the `"end"` event, the remaining frames
change nothing and the loop is over (no further callback effect fires). -/
theorem c9_frame_loop_reregistration :
    (∀ (s : AR1.State) (results : List HitResult),
      (AR1.onXRFrame s results).2 = true) ∧
    (∀ (cap : Bool) (s : AR2.State) (results : List HitResult),
      (AR2.onXRFrame cap s results).2 = s.sessionRef) ∧
    (∀ s : AR2.State, (AR2.onEnd s).sessionRef = false) ∧
    (∀ (cap : Bool) (s : AR2.State) (frames : List (List HitResult)),
      AR2.runLoop cap (AR2.onEnd s) frames = AR2.onEnd s) := by
  refine ⟨?_, ?_, fun s => rfl, ?_⟩
  · intro s results
    unfold AR1.onXRFrame
    repeat' split
    all_goals rfl
  · intro cap s results
    cases hs : s.sessionRef
    · simp [AR2.onXRFrame, hs]
    · unfold AR2.onXRFrame
      rw [hs]
      simp only [Bool.true_eq_false, if_false, reduceIte]
      repeat' split
      all_goals rfl
  · intro cap s frames
    cases frames with
    | nil => rfl
    | cons r rest => rfl

/-- C10: in the `part_001` variant, `placeSphere` rejects exactly when the
reticle's position is component-wise the origin: an origin pose (even from
a genuinely detected, visible surface) always yields the unchanged
"no valid position" rejection state, while any non-origin pose — even with
the indicator invisible — places the sphere at the reticle's exact pose,
makes it visible and sets the placed flag. -/
theorem c10_origin_guard :
    ∀ s : P1.State,
      ((s.reticle.position.x = 0 ∧ s.reticle.position.y = 0 ∧
          s.reticle.position.z = 0) →
        P1.placeSphere s = { s with statusMessage := .noValidPosition }) ∧
      (¬(s.reticle.position.x = 0 ∧ s.reticle.position.y = 0 ∧
          s.reticle.position.z = 0) →
        (P1.placeSphere s).spherePlaced = true ∧
        (P1.placeSphere s).sphere.position = s.reticle.position ∧
        (P1.placeSphere s).sphere.quaternion = s.reticle.quaternion ∧
        (P1.placeSphere s).sphere.visible = true ∧
        (P1.placeSphere s).reticle.visible = false) := by
  intro s
  constructor
  · intro h
    simp [P1.placeSphere, h]
  · intro h
    simp [P1.placeSphere, h]

/-- C10 witness: the rejection side evaluated at a visible reticle sitting
exactly at the origin, and the success side at an invisible reticle with a
non-origin last-known pose. -/
theorem c10_witness :
    (P1.placeSphere c10sA = { c10sA with statusMessage := .noValidPosition }) ∧
    ((P1.placeSphere c10sB).spherePlaced = true ∧
     (P1.placeSphere c10sB).sphere.position = c10sB.reticle.position ∧
     (P1.placeSphere c10sB).sphere.quaternion = c10sB.reticle.quaternion ∧
     (P1.placeSphere c10sB).sphere.visible = true ∧
     (P1.placeSphere c10sB).reticle.visible = false) :=
  ⟨(c10_origin_guard c10sA).1 (by decide),
   (c10_origin_guard c10sB).2 (by decide)⟩
